import Mathlib

/-!
Verification of the `acodeh` repository against its specification.

The development shallowly embeds the two core components of the source:

* `src/llm.rs` — `LLMClient::generate_stream`: the frame-deframing loop that
  turns a chunked byte stream into decoded `GenerateResponse` frames, invoking
  a per-frame callback.  JSON decoding (the external `serde_json::from_slice`
  call) is modelled by an executable JSON parser (`parseGenerate`) and the
  deframing loop is additionally parametric in the parse function.
* `src/prompt.rs` — `PromptBuilder`: budget-checked admission of file and
  document fragments (`add_file`, `add_document`) and prompt assembly
  (`build`).

Rust `u64` values are represented as `Nat` (no claim exercises wrap-around),
Rust byte lengths (`String::len`) as UTF-8 byte sizes (`String.utf8ByteSize`),
and fallible operations as `Except`/`Option` results.  Streams of chunks are
finite lists; each chunk is either transport data (a list of characters,
byte-equivalent for the ASCII wire content in scope) or a transport error.
-/

deriving instance DecidableEq for Except

namespace Acodeh

/-! ## JSON model (the serde_json data model used by the source) -/

/-- JSON values as parsed by `serde_json`.  Numbers are modelled as integers:
the wire format in scope (`GenerateResponse` records) only carries `u64`
counters and durations; floating-point numerals are out of scope. -/
inductive Json where
  | null : Json
  | bool : Bool → Json
  | num : Int → Json
  | str : String → Json
  | arr : List Json → Json
  | obj : List (String × Json) → Json

/-- JSON insignificant whitespace. -/
def isWs (c : Char) : Bool :=
  c == ' ' || c == '\n' || c == '\r' || c == '\t'

/-- Drop leading JSON whitespace. -/
def skipWs : List Char → List Char
  | [] => []
  | c :: cs => if isWs c then skipWs cs else c :: cs

/-- Value of a hexadecimal digit. -/
def hexVal (c : Char) : Option Nat :=
  if '0' ≤ c ∧ c ≤ '9' then some (c.toNat - '0'.toNat)
  else if 'a' ≤ c ∧ c ≤ 'f' then some (c.toNat - 'a'.toNat + 10)
  else if 'A' ≤ c ∧ c ≤ 'F' then some (c.toNat - 'A'.toNat + 10)
  else none

/-- Body of a JSON string literal (after the opening quote): handles the
escape sequences accepted by `serde_json` and rejects raw control
characters.  Returns the decoded string and the input after the closing
quote. -/
def parseStringBody : Nat → List Char → String → Option (String × List Char)
  | 0, _, _ => none
  | _ + 1, [], _ => none
  | fuel + 1, c :: cs, acc =>
    if c = '\x22' then some (acc, cs)
    else if c = '\\' then
      match cs with
      | [] => none
      | e :: cs2 =>
        if e = '\x22' then parseStringBody fuel cs2 (acc.push '\x22')
        else if e = '\\' then parseStringBody fuel cs2 (acc.push '\\')
        else if e = '/' then parseStringBody fuel cs2 (acc.push '/')
        else if e = 'b' then parseStringBody fuel cs2 (acc.push '\x08')
        else if e = 'f' then parseStringBody fuel cs2 (acc.push '\x0c')
        else if e = 'n' then parseStringBody fuel cs2 (acc.push '\n')
        else if e = 'r' then parseStringBody fuel cs2 (acc.push '\r')
        else if e = 't' then parseStringBody fuel cs2 (acc.push '\t')
        else if e = 'u' then
          match cs2 with
          | h1 :: h2 :: h3 :: h4 :: cs3 =>
            match hexVal h1, hexVal h2, hexVal h3, hexVal h4 with
            | some a, some b, some c2, some d =>
              parseStringBody fuel cs3
                (acc.push (Char.ofNat (((a * 16 + b) * 16 + c2) * 16 + d)))
            | _, _, _, _ => none
          | _ => none
        else none
    else if c.toNat < 32 then none
    else parseStringBody fuel cs (acc.push c)

/-- Longest prefix of decimal digits, and the rest of the input. -/
def takeDigits : List Char → List Char × List Char
  | [] => ([], [])
  | c :: cs =>
    if c.isDigit then
      let (ds, rest) := takeDigits cs
      (c :: ds, rest)
    else ([], c :: cs)

/-- Decimal value of a digit list. -/
def digitsToNat (ds : List Char) : Nat :=
  ds.foldl (fun n c => n * 10 + (c.toNat - 48)) 0

mutual

/-- One JSON value, plus the remaining input.  Fuel-indexed; the fuel bound
used by `fromSlice` is generous for every input in scope. -/
def parseValue : Nat → List Char → Option (Json × List Char)
  | 0, _ => none
  | fuel + 1, cs =>
    match skipWs cs with
    | [] => none
    | c :: cs1 =>
      if c = 'n' then
        match cs1 with
        | 'u' :: 'l' :: 'l' :: rest => some (.null, rest)
        | _ => none
      else if c = 't' then
        match cs1 with
        | 'r' :: 'u' :: 'e' :: rest => some (.bool true, rest)
        | _ => none
      else if c = 'f' then
        match cs1 with
        | 'a' :: 'l' :: 's' :: 'e' :: rest => some (.bool false, rest)
        | _ => none
      else if c = '\x22' then
        match parseStringBody (cs1.length + 1) cs1 "" with
        | some (s, rest) => some (.str s, rest)
        | none => none
      else if c = '-' then
        match takeDigits cs1 with
        | ([], _) => none
        | (ds, rest) => some (.num (-(digitsToNat ds : Int)), rest)
      else if c.isDigit then
        match takeDigits (c :: cs1) with
        | ([], _) => none
        | (ds, rest) => some (.num (digitsToNat ds : Int), rest)
      else if c = '[' then
        match skipWs cs1 with
        | ']' :: rest => some (.arr [], rest)
        | cs2 => parseElems fuel cs2 []
      else if c = '\x7b' then
        match skipWs cs1 with
        | '\x7d' :: rest => some (.obj [], rest)
        | cs2 => parseFields fuel cs2 []
      else none

/-- Elements of a non-empty JSON array (after the opening bracket). -/
def parseElems : Nat → List Char → List Json → Option (Json × List Char)
  | 0, _, _ => none
  | fuel + 1, cs, acc =>
    match parseValue fuel cs with
    | none => none
    | some (v, rest) =>
      match skipWs rest with
      | ',' :: rest2 => parseElems fuel rest2 (acc ++ [v])
      | ']' :: rest2 => some (.arr (acc ++ [v]), rest2)
      | _ => none

/-- Members of a non-empty JSON object (after the opening brace). -/
def parseFields : Nat → List Char → List (String × Json) → Option (Json × List Char)
  | 0, _, _ => none
  | fuel + 1, cs, acc =>
    match skipWs cs with
    | [] => none
    | c :: cs1 =>
      if c = '\x22' then
        match parseStringBody (cs1.length + 1) cs1 "" with
        | some (k, rest) =>
          match skipWs rest with
          | ':' :: rest2 =>
            match parseValue fuel rest2 with
            | some (v, rest3) =>
              match skipWs rest3 with
              | ',' :: rest4 => parseFields fuel rest4 (acc ++ [(k, v)])
              | '\x7d' :: rest4 => some (.obj (acc ++ [(k, v)]), rest4)
              | _ => none
            | none => none
          | _ => none
        | none => none
      else none

end

/-- Model of `serde_json::from_slice` at the JSON level: the whole input must
be exactly one JSON value, surrounded only by whitespace (trailing data is
rejected, matching serde's `end()` check). -/
def fromSlice (cs : List Char) : Option Json :=
  match parseValue (2 * cs.length + 2) cs with
  | some (v, rest) => if (skipWs rest).isEmpty then some v else none
  | none => none

/-! ## `GenerateResponse` (src/llm.rs lines 25–40) -/

/-- The `GenerateResponse` record of src/llm.rs.  All fields carry
`#[serde(default)]` defaults; `u64` fields are modelled as `Nat`. -/
structure GenerateResponse where
  created_at : String := ""
  done_reason : String := ""
  done : Bool := false
  eval_count : Nat := 0
  eval_duration : Nat := 0
  load_duration : Nat := 0
  model : String := ""
  prompt_eval_count : Nat := 0
  prompt_eval_duration : Nat := 0
  response : String := ""
  total_duration : Nat := 0
  error : Option String := none
  deriving Repr, DecidableEq, Inhabited

/-- First binding of a field in a JSON object. -/
def getField (fs : List (String × Json)) (k : String) : Option Json :=
  (fs.find? (fun p => p.1 == k)).map (fun p => p.2)

/-- A `String` field with `serde(default)`: absent ⇒ `""`, wrong type ⇒ decode
failure. -/
def decodeStringField (fs : List (String × Json)) (k : String) : Option String :=
  match getField fs k with
  | none => some ""
  | some (.str s) => some s
  | some _ => none

/-- A `bool` field with `serde(default)`. -/
def decodeBoolField (fs : List (String × Json)) (k : String) : Option Bool :=
  match getField fs k with
  | none => some false
  | some (.bool b) => some b
  | some _ => none

/-- A `u64` field with `serde(default)`. -/
def decodeNatField (fs : List (String × Json)) (k : String) : Option Nat :=
  match getField fs k with
  | none => some 0
  | some (.num n) => if 0 ≤ n then some n.toNat else none
  | some _ => none

/-- The `error: Option<String>` field: absent or `null` ⇒ `none`. -/
def decodeErrorField (fs : List (String × Json)) : Option (Option String) :=
  match getField fs "error" with
  | none => some none
  | some .null => some none
  | some (.str s) => some (some s)
  | some _ => none

/-- serde deserialization of `GenerateResponse` from a JSON value: the value
must be an object; unknown members are ignored. -/
def decodeGenerateResponse (j : Json) : Option GenerateResponse :=
  match j with
  | .obj fs =>
    (decodeStringField fs "created_at").bind fun created_at =>
    (decodeStringField fs "done_reason").bind fun done_reason =>
    (decodeBoolField fs "done").bind fun done =>
    (decodeNatField fs "eval_count").bind fun eval_count =>
    (decodeNatField fs "eval_duration").bind fun eval_duration =>
    (decodeNatField fs "load_duration").bind fun load_duration =>
    (decodeStringField fs "model").bind fun model =>
    (decodeNatField fs "prompt_eval_count").bind fun prompt_eval_count =>
    (decodeNatField fs "prompt_eval_duration").bind fun prompt_eval_duration =>
    (decodeStringField fs "response").bind fun response =>
    (decodeNatField fs "total_duration").bind fun total_duration =>
    (decodeErrorField fs).bind fun error =>
    some { created_at, done_reason, done, eval_count, eval_duration,
           load_duration, model, prompt_eval_count, prompt_eval_duration,
           response, total_duration, error }
  | _ => none

/-- Model of `serde_json::from_slice::<GenerateResponse>`. -/
def parseGenerate (cs : List Char) : Option GenerateResponse :=
  (fromSlice cs).bind decodeGenerateResponse

/-! ## The streaming loop of `LLMClient::generate_stream` (src/llm.rs 81–104)

The HTTP layer (request sending, status check) is external to the loop; the
embedding starts at the successful-status branch: `response.bytes_stream()`
is a finite list of chunks, each either data or a transport error (the `?` on
`chunk`).  The `serde_json::from_slice` call is the `parse` parameter
(instantiated with `parseGenerate` for concrete runs), and the `on_chunk`
callback is an explicitly state-passing function `σ → GenerateResponse →
σ × Bool` (`FnMut` closures carry state; `true` means stop). -/

/-- How one `generate_stream` call ends. -/
inductive StreamOutcome where
  | ok : StreamOutcome
  | llmError : String → StreamOutcome
  | frameDecodeError : StreamOutcome
  | transportError : String → StreamOutcome
  deriving Repr, DecidableEq

/-- Observable result of one `generate_stream` call: the outcome, the frames
passed to `on_chunk` from the standalone-chunk path (in call order), and the
frame passed to `on_chunk` from the end-of-stream buffer flush, if any (it is
always the last call). -/
structure RunResult where
  outcome : StreamOutcome
  delivered : List GenerateResponse
  flushFrame : Option GenerateResponse
  deriving Repr, DecidableEq

/-- All frames passed to `on_chunk`, in call order. -/
def deliveredFrames (r : RunResult) : List GenerateResponse :=
  r.delivered ++ r.flushFrame.toList

/-- The code after the `while` loop (src/llm.rs 98–101): if the accumulation
buffer `no_parsed_chunks` is non-empty, parse it once; a parse failure is
fatal (`?`), a success is handed to `on_chunk` (result ignored) with no check
of its `error` field. -/
def flushBuffer (parse : List Char → Option GenerateResponse)
    (buf : List Char) (delivered : List GenerateResponse) : RunResult :=
  if buf.isEmpty then ⟨.ok, delivered, none⟩
  else
    match parse buf with
    | none => ⟨.frameDecodeError, delivered, none⟩
    | some f => ⟨.ok, delivered, some f⟩

/-- The `while let Some(chunk) = stream.next()` loop (src/llm.rs 83–97)
followed by the flush: a chunk that parses alone is checked for an in-band
error (immediate `LLM error` return) and otherwise handed to `on_chunk`,
whose `true` result breaks out of the loop into the flush; a chunk that does
not parse is appended to the accumulation buffer. -/
def streamLoop {σ : Type} (parse : List Char → Option GenerateResponse)
    (cb : σ → GenerateResponse → σ × Bool) :
    List (Except String (List Char)) → σ → List Char → List GenerateResponse → RunResult
  | [], _, buf, delivered => flushBuffer parse buf delivered
  | .error e :: _, _, _, delivered => ⟨.transportError e, delivered, none⟩
  | .ok c :: rest, s, buf, delivered =>
    match parse c with
    | some f =>
      match f.error with
      | some e => ⟨.llmError e, delivered, none⟩
      | none =>
        let r := cb s f
        if r.2 then flushBuffer parse buf (delivered ++ [f])
        else streamLoop parse cb rest r.1 buf (delivered ++ [f])
    | none => streamLoop parse cb rest s (buf ++ c) delivered

/-- `LLMClient::generate_stream`, from the successful-status branch on:
empty accumulation buffer, empty delivery history, initial callback state. -/
def generateStream {σ : Type} (parse : List Char → Option GenerateResponse)
    (cb : σ → GenerateResponse → σ × Bool) (s0 : σ)
    (chunks : List (Except String (List Char))) : RunResult :=
  streamLoop parse cb chunks s0 [] []

/-! ## `PromptBuilder` (src/prompt.rs) -/

/-- `DEFAULT_MAX_CONTEXT` (src/prompt.rs line 4). -/
def DEFAULT_MAX_CONTEXT : Nat := 16 * 1024

/-- `PromptStats` (src/prompt.rs lines 6–14). -/
structure PromptStats where
  file_count : Nat
  document_count : Nat
  total_content_len : Nat
  context_len_estimated : Nat
  prompt_context_len_estimated : Nat
  max_context : Nat
  deriving Repr, DecidableEq

/-- `PromptBuilder` (src/prompt.rs lines 16–22); paths are their string
rendering (`to_string_lossy`). -/
structure PromptBuilder where
  prompt : String
  files : List (String × String)
  documents : List String
  total_content_len : Nat
  max_context : Option Nat
  deriving Repr, DecidableEq

/-- `PromptBuilder::new`. -/
def PromptBuilder.new (prompt : String) : PromptBuilder :=
  ⟨prompt, [], [], 0, none⟩

/-- The `max_context` builder method (src/prompt.rs 35–38); named apart from
the field accessor. -/
def setMaxContext (b : PromptBuilder) (value : Option Nat) : PromptBuilder :=
  { b with max_context := value }

/-- The two error kinds an admission call can produce: the extraction error
propagated by `?` and the `Maximum context exceeded` rejection (carrying the
effective ceiling, as the source's message does). -/
inductive AddError where
  | extractionFailed : String → AddError
  | budgetExceeded : Nat → AddError
  deriving Repr, DecidableEq

/-- Rust `String::len`: the UTF-8 byte length. -/
def byteLen (s : String) : Nat := s.utf8ByteSize

/-- The file fragment rendering of src/prompt.rs lines 53–56
(`format!("path: \x7b\x7d\n\x60\x60\x60\x7b\x7d\n\x7b\x7d\n\x60\x60\x60", ...)`). -/
def renderFile (path extension content : String) : String :=
  "path: " ++ path ++ "\n\x60\x60\x60" ++ extension ++ "\n" ++ content ++ "\n\x60\x60\x60"

/-- `PromptBuilder::add_file` (src/prompt.rs 40–71), from the point where the
external extraction collaborator (`pdf_extract::extract_text` or
`tokio::fs::read_to_string`) has produced its `Result`, passed in as
`extracted`; the extension and lossy path string are inputs.  `&mut self` is
modelled by returning the updated builder next to the `Result`; every early
`return Err` leaves the builder exactly as received. -/
def add_file (b : PromptBuilder) (path extension : String)
    (extracted : Except String String) : PromptBuilder × Except AddError Nat :=
  match extracted with
  | .error e => (b, .error (.extractionFailed e))
  | .ok content =>
    let rendered := renderFile path extension content
    let content_len := byteLen rendered
    let maxCtx := b.max_context.getD DEFAULT_MAX_CONTEXT
    if (b.total_content_len + content_len) / 4 > maxCtx then
      (b, .error (.budgetExceeded maxCtx))
    else
      ({ b with total_content_len := b.total_content_len + content_len,
                files := b.files ++ [(path, rendered)] },
       .ok content_len)

/-- `PromptBuilder::add_document` (src/prompt.rs 73–87). -/
def add_document (b : PromptBuilder) (content : String) :
    PromptBuilder × Except AddError Nat :=
  let content_len := byteLen content
  let maxCtx := b.max_context.getD DEFAULT_MAX_CONTEXT
  if (b.total_content_len + content_len) / 4 > maxCtx then
    (b, .error (.budgetExceeded maxCtx))
  else
    ({ b with total_content_len := b.total_content_len + content_len,
              documents := b.documents ++ [content] },
     .ok content_len)

/-- The fold joining file fragments (src/prompt.rs 103–107):
`fold(String::new(), |acc, (.., content)| format!("\x7bacc\x7d\n\x7bcontent\x7d"))`. -/
def foldFiles (files : List (String × String)) : String :=
  files.foldl (fun acc p => acc ++ "\n" ++ p.2) ""

/-- The `while aligned_context_len < target` doubling loop of
src/prompt.rs 138–141, fuel-indexed (the fuel used below is always
sufficient: doubling from a positive start reaches `t` within `t` steps). -/
def alignUpAux : Nat → Nat → Nat → Nat
  | 0, a, _ => a
  | fuel + 1, a, t => if a < t then alignUpAux fuel (a * 2) t else a

/-- The `max_context` resolution match of src/prompt.rs 134–149. -/
def resolveMaxContext (explicit : Option Nat) (pcle : Nat) : Nat :=
  match explicit with
  | some m => m
  | none =>
    if pcle > DEFAULT_MAX_CONTEXT then DEFAULT_MAX_CONTEXT
    else
      let aligned := alignUpAux pcle (2 * 1024) pcle
      if aligned > DEFAULT_MAX_CONTEXT then DEFAULT_MAX_CONTEXT else aligned

/-- Modelled from the spec: the contents of `prompt_context_templete.in` are
not part of src/ (the source splices the joined context into it with
`format!` and a single placeholder), so the instantiated template is
`tpre ++ context ++ tpost` for fixed but unknown strings `tpre`, `tpost`;
all theorems hold for every choice of the two. -/
def applyTemplate (tpre tpost ctx : String) : String := tpre ++ ctx ++ tpost

/-- `PromptBuilder::build` (src/prompt.rs 97–162).  `&self` is modelled by
returning the (unchanged) builder next to the `(prompt, stats)` pair. -/
def build (tpre tpost : String) (b : PromptBuilder) :
    PromptBuilder × String × PromptStats :=
  let context : List String :=
    (if b.files.isEmpty then [] else
      ["<files>\n" ++ foldFiles b.files ++ "\n</files>"]) ++
    (if b.documents.isEmpty then [] else
      ["<documents>\n" ++ String.intercalate "\n" b.documents ++ "\n</documents>"])
  let prompt :=
    if context.isEmpty then b.prompt
    else String.intercalate "\n"
      [b.prompt, applyTemplate tpre tpost (String.intercalate "\n" context)]
  let pcle := byteLen prompt / 4
  (b, prompt,
   { file_count := b.files.length,
     document_count := b.documents.length,
     total_content_len := b.total_content_len,
     context_len_estimated := b.total_content_len / 4,
     prompt_context_len_estimated := pcle,
     max_context := resolveMaxContext b.max_context pcle })

/-- One admission call in a caller-side sequence: an `add_file` call (with
the extraction collaborator's result) or an `add_document` call. -/
inductive AdmissionOp where
  | file : String → String → Except String String → AdmissionOp
  | doc : String → AdmissionOp

/-- The builder state after one admission call (errors leave it as the call
returned it). -/
def applyOp (b : PromptBuilder) : AdmissionOp → PromptBuilder
  | .file path extension extracted => (add_file b path extension extracted).1
  | .doc text => (add_document b text).1

/-- The builder state after a sequence of admission calls. -/
def runOps (b : PromptBuilder) (ops : List AdmissionOp) : PromptBuilder :=
  ops.foldl applyOp b

/-- Sum of the byte lengths of the admitted fragments: rendered contents for
files, raw texts for documents. -/
def sumFragLen (b : PromptBuilder) : Nat :=
  (b.files.map (fun p => byteLen p.2)).sum + (b.documents.map byteLen).sum

/-! ## Concrete wire chunks used by the scenario claims -/

/-- A chunk holding the opening of a record carrying an in-band error. -/
def chunkC1A : List Char := "\x7b\x22error\x22:".toList

/-- The chunk completing `chunkC1A` to `\x7b"error":"boom"\x7d`. -/
def chunkC1B : List Char := "\x22boom\x22\x7d".toList

/-- A whole record carrying an in-band error, in one chunk. -/
def chunkErrStandalone : List Char := "\x7b\x22error\x22:\x22x\x22\x7d".toList

/-- A chunk holding the opening of a `done` record. -/
def chunkC2A : List Char := "\x7b\x22done\x22:".toList

/-- The chunk completing `chunkC2A` to `\x7b"done":true\x7d`. -/
def chunkC2B : List Char := "true\x7d".toList

/-- A whole record in one chunk. -/
def chunkC2C : List Char := "\x7b\x22response\x22:\x22x\x22\x7d".toList

/-- A whole `done` record in one chunk. -/
def chunkDone : List Char := "\x7b\x22done\x22:true\x7d".toList

/-- The first chunk of the C3 scenario: a record opening cut mid-key. -/
def chunkC3A : List Char := "\x7b\x22respo".toList

/-- The second chunk of the C3 scenario: the rest of the first record
followed by a second whole record. -/
def chunkC3B : List Char :=
  "nse\x22:\x22hi\x22,\x22done\x22:false\x7d\n\x7b\x22response\x22:\x22\x22,\x22done\x22:true,\x22done_reason\x22:\x22stop\x22\x7d".toList

/-- The frame a flushed `\x7b"error":"boom"\x7d` buffer decodes to. -/
def frameError (e : String) : GenerateResponse := { error := some e }

/-- The frame `\x7b"done":true\x7d` decodes to. -/
def frameDone : GenerateResponse := { done := true }

/-! ## Helper lemmas -/

/-- The flush never removes already-delivered frames. -/
theorem flushBuffer_delivered (parse : List Char → Option GenerateResponse)
    (buf : List Char) (d : List GenerateResponse) :
    (flushBuffer parse buf d).delivered = d := by
  unfold flushBuffer
  split
  · rfl
  · split <;> rfl

/-- Frames delivered from the standalone-chunk path all carry `error = none`
(the loop returns before `on_chunk` whenever the decoded error field is
set). -/
theorem streamLoop_delivered_error_none {σ : Type}
    (parse : List Char → Option GenerateResponse)
    (cb : σ → GenerateResponse → σ × Bool) :
    ∀ (chunks : List (Except String (List Char))) (s : σ) (buf : List Char)
      (delivered : List GenerateResponse),
      (∀ g ∈ delivered, g.error = none) →
      ∀ g ∈ (streamLoop parse cb chunks s buf delivered).delivered, g.error = none := by
  intro chunks
  induction chunks with
  | nil =>
    intro s buf delivered h
    simpa [streamLoop, flushBuffer_delivered] using h
  | cons hd rest ih =>
    intro s buf delivered h
    match hd with
    | .error e => simpa [streamLoop] using h
    | .ok c =>
      simp only [streamLoop]
      cases hp : parse c with
      | none => exact ih s (buf ++ c) delivered h
      | some f =>
        cases he : f.error with
        | some e => simpa [he] using h
        | none =>
          have h' : ∀ g ∈ delivered ++ [f], g.error = none := by
            intro g hg
            rcases List.mem_append.mp hg with hg | hg
            · exact h g hg
            · simpa [List.mem_singleton.mp hg] using he
          by_cases hstop : (cb s f).2 = true
          · simpa [he, hstop, flushBuffer_delivered] using h'
          · simp only [Bool.not_eq_true] at hstop
            simpa [he, hstop] using ih (cb s f).1 buf (delivered ++ [f]) h'

/-- A string of `n` copies of one character. -/
def mkStr (n : Nat) (c : Char) : String := String.mk (List.replicate n c)

/-- UTF-8 length of a replicated character list. -/
theorem utf8Len_replicate (n : Nat) (c : Char) :
    String.utf8Len (List.replicate n c) = n * c.utf8Size := by
  induction n with
  | zero => simp
  | succ n ih => simp [List.replicate_succ, ih, Nat.succ_mul]

/-- Byte length of a replicated-character string. -/
theorem byteLen_mkStr (n : Nat) (c : Char) :
    byteLen (mkStr n c) = n * c.utf8Size := by
  simp [byteLen, mkStr, String.utf8ByteSize_mk, utf8Len_replicate]

/-- Byte length of a concatenation. -/
theorem byteLen_append (a b : String) : byteLen (a ++ b) = byteLen a + byteLen b := by
  cases a with
  | mk la =>
    cases b with
    | mk lb =>
      show String.utf8ByteSize ⟨la ++ lb⟩ = _
      simp [byteLen, String.utf8ByteSize_mk]

/-- Byte length of a rendered file fragment: the fixed wrapper text
contributes 15 bytes. -/
theorem byteLen_renderFile (path extension content : String) :
    byteLen (renderFile path extension content) =
      byteLen path + byteLen extension + byteLen content + 15 := by
  have h1 : byteLen "path: " = 6 := rfl
  have h2 : byteLen "\n\x60\x60\x60" = 4 := rfl
  have h3 : byteLen "\n" = 1 := rfl
  simp only [renderFile, byteLen_append, h1, h2, h3]
  omega

/-- The 40000-byte document of the C4 scenario. -/
def bigDoc : String := mkStr 40000 'a'

/-- A file content whose rendering under path `"f"` and empty extension is
exactly 40000 bytes. -/
def bigFileContent : String := mkStr 39984 'a'

/-- The UTF-8 size of the ASCII character used in the scenario strings. -/
theorem utf8Size_a : 'a'.utf8Size = 1 := rfl

/-- `bigDoc` is 40000 bytes long. -/
theorem byteLen_bigDoc : byteLen bigDoc = 40000 := by
  unfold bigDoc
  rw [byteLen_mkStr, utf8Size_a, Nat.mul_one]

/-- The rendered `bigFileContent` fragment is 40000 bytes long. -/
theorem byteLen_bigFile : byteLen (renderFile "f" "" bigFileContent) = 40000 := by
  have h1 : byteLen "f" = 1 := rfl
  have h2 : byteLen "" = 0 := rfl
  have h3 : byteLen bigFileContent = 39984 := by
    unfold bigFileContent
    rw [byteLen_mkStr, utf8Size_a, Nat.mul_one]
  rw [byteLen_renderFile, h1, h2, h3]

/-! ## Claims about `generate_stream` -/

/-- Claim C1, counterexample: the two-chunk stream whose concatenation is the
record `\x7b"error":"boom"\x7d` (neither chunk parses alone).  The record is
decoded by the end-of-stream buffer flush, which checks no error field:
`generate_stream` returns success and `on_chunk` receives the frame whose
`error` is `some "boom"`, contradicting the claim that such a frame makes the
call fail with `LLMError` and is never passed to the callback. -/
theorem c1_counterexample :
    generateStream parseGenerate (fun (_ : Unit) _ => ((), false)) ()
      [.ok chunkC1A, .ok chunkC1B] =
      ⟨.ok, [], some (frameError "boom")⟩ := by decide

/-- Claim C1 (amended): a frame decoded from a *standalone* chunk whose
`error` field is non-empty makes `generate_stream` return the LLM-error
failure immediately and is never passed to `on_chunk` (first conjunct: from
any loop state, the run ends right there with the delivery history
unchanged); consequently every frame delivered from the standalone path
carries `error = none` (second conjunct).  The end-of-stream flush frame is
exempt: it is delivered without an error check. -/
theorem c1_standalone_error_aborts :
    (∀ (σ : Type) (parse : List Char → Option GenerateResponse)
       (cb : σ → GenerateResponse → σ × Bool)
       (rest : List (Except String (List Char))) (s : σ) (buf : List Char)
       (delivered : List GenerateResponse) (c : List Char)
       (f : GenerateResponse) (e : String),
       parse c = some f → f.error = some e →
       streamLoop parse cb (.ok c :: rest) s buf delivered =
         ⟨.llmError e, delivered, none⟩)
    ∧ (∀ (σ : Type) (parse : List Char → Option GenerateResponse)
         (cb : σ → GenerateResponse → σ × Bool)
         (chunks : List (Except String (List Char))) (s : σ) (buf : List Char)
         (delivered : List GenerateResponse) (g : GenerateResponse),
         (∀ g' ∈ delivered, g'.error = none) →
         g ∈ (streamLoop parse cb chunks s buf delivered).delivered →
         g.error = none) := by
  refine ⟨?_, ?_⟩
  · intro σ parse cb rest s buf delivered c f e hp he
    simp [streamLoop, hp, he]
  · intro σ parse cb chunks s buf delivered g h hg
    exact streamLoop_delivered_error_none parse cb chunks s buf delivered h g hg

/-- Witness for C1 (amended), at a concrete input: a standalone chunk
decoding to `\x7b"error":"x"\x7d` aborts the run with `LLM error: x` without
delivering the frame, even with further chunks pending; and the frame the
one-chunk `done` run delivers carries no error. -/
theorem c1_witness :
    streamLoop parseGenerate (fun (s : Unit) _ => (s, false))
      [.ok chunkErrStandalone, .ok chunkDone] () [] [] =
      ⟨.llmError "x", [], none⟩ ∧
    frameDone.error = none :=
  ⟨c1_standalone_error_aborts.1 Unit parseGenerate (fun (s : Unit) _ => (s, false))
     [.ok chunkDone] () [] [] chunkErrStandalone (frameError "x") "x" (by decide) rfl,
   c1_standalone_error_aborts.2 Unit parseGenerate (fun (s : Unit) _ => (s, false))
     [.ok chunkDone] () [] [] frameDone (by simp) (by decide)⟩

/-- Claim C2, counterexample: chunks `\x7b"done":`, `true\x7d`,
`\x7b"response":"x"\x7d` with a callback that stops on the first frame.  The
third chunk is the first to parse standalone; the callback stops on it, but
the accumulation buffer still holds the first two chunks, so the
end-of-stream flush decodes and delivers a *second* frame: the run returns
success having delivered two frames, not exactly one. -/
theorem c2_counterexample :
    (generateStream parseGenerate (fun (_ : Unit) _ => ((), true)) ()
       [.ok chunkC2A, .ok chunkC2B, .ok chunkC2C]).outcome = .ok ∧
    (deliveredFrames (generateStream parseGenerate (fun (_ : Unit) _ => ((), true)) ()
       [.ok chunkC2A, .ok chunkC2B, .ok chunkC2C])).length = 2 := by decide

/-- Claim C2 (amended): when `on_chunk` returns stop on a standalone-decoded
frame, no further chunk is read (the remaining chunks `rest` do not occur on
the right-hand side), and the call finishes by flushing the accumulation
buffer exactly as at normal end of stream: an empty buffer yields success
with no further frame, a non-empty buffer yields one final flush frame on
parse success, or the frame-decode failure. -/
theorem c2_stop_flushes_and_discards_rest :
    ∀ (σ : Type) (parse : List Char → Option GenerateResponse)
      (cb : σ → GenerateResponse → σ × Bool)
      (rest : List (Except String (List Char))) (s : σ) (buf : List Char)
      (delivered : List GenerateResponse) (c : List Char) (f : GenerateResponse),
      parse c = some f → f.error = none → (cb s f).2 = true →
      streamLoop parse cb (.ok c :: rest) s buf delivered =
        flushBuffer parse buf (delivered ++ [f]) := by
  intro σ parse cb rest s buf delivered c f hp he hstop
  simp [streamLoop, hp, he, hstop]

/-- Witness for C2 (amended), at a concrete input: stop on the first frame
with an empty buffer ends the run successfully with that single frame,
ignoring a pending chunk. -/
theorem c2_witness :
    streamLoop parseGenerate (fun (_ : Unit) _ => ((), true))
      [.ok chunkDone, .ok chunkErrStandalone] () [] [] =
      flushBuffer parseGenerate [] ([] ++ [frameDone]) :=
  c2_stop_flushes_and_discards_rest Unit parseGenerate (fun (_ : Unit) _ => ((), true))
    [.ok chunkErrStandalone] () [] [] chunkDone frameDone (by decide) rfl rfl

/-- Claim C3, counterexample: on the scenario chunks (`\x7b"respo` followed by
`nse":"hi","done":false\x7d\n\x7b"response":"","done":true,"done_reason":"stop"\x7d`)
the deframing delivers zero frames, not the claimed two. -/
theorem c3_counterexample :
    (deliveredFrames (generateStream parseGenerate (fun (_ : Unit) _ => ((), false)) ()
       [.ok chunkC3A, .ok chunkC3B])).length = 0 := by decide

/-- Claim C3 (amended): on the scenario chunk sequence, neither chunk parses
alone, so both are appended to the accumulation buffer; the end-of-stream
flush parses the buffer *once* as a single record, which fails because the
buffer holds two records (trailing data after the first), so
`generate_stream` fails with the frame-decode error having delivered no
frame. -/
theorem c3_partial_then_two_records :
    generateStream parseGenerate (fun (_ : Unit) _ => ((), false)) ()
      [.ok chunkC3A, .ok chunkC3B] = ⟨.frameDecodeError, [], none⟩ := by decide

/-! ## Claims about `PromptBuilder` admission -/

/-- `add_document`, rejection case. -/
theorem add_document_reject (b : PromptBuilder) (content : String)
    (hc : (b.total_content_len + byteLen content) / 4 >
      b.max_context.getD DEFAULT_MAX_CONTEXT) :
    add_document b content =
      (b, .error (.budgetExceeded (b.max_context.getD DEFAULT_MAX_CONTEXT))) := by
  simp [add_document, hc]

/-- `add_document`, admission case. -/
theorem add_document_accept (b : PromptBuilder) (content : String)
    (hc : ¬ (b.total_content_len + byteLen content) / 4 >
      b.max_context.getD DEFAULT_MAX_CONTEXT) :
    add_document b content =
      ({ b with total_content_len := b.total_content_len + byteLen content,
                documents := b.documents ++ [content] },
       .ok (byteLen content)) := by
  simp [add_document, hc]

/-- `add_file` after successful extraction, rejection case. -/
theorem add_file_reject (b : PromptBuilder) (path extension content : String)
    (hc : (b.total_content_len + byteLen (renderFile path extension content)) / 4 >
      b.max_context.getD DEFAULT_MAX_CONTEXT) :
    add_file b path extension (.ok content) =
      (b, .error (.budgetExceeded (b.max_context.getD DEFAULT_MAX_CONTEXT))) := by
  simp [add_file, hc]

/-- `add_file` after successful extraction, admission case. -/
theorem add_file_accept (b : PromptBuilder) (path extension content : String)
    (hc : ¬ (b.total_content_len + byteLen (renderFile path extension content)) / 4 >
      b.max_context.getD DEFAULT_MAX_CONTEXT) :
    add_file b path extension (.ok content) =
      ({ b with total_content_len :=
                  b.total_content_len + byteLen (renderFile path extension content),
                files := b.files ++ [(path, renderFile path extension content)] },
       .ok (byteLen (renderFile path extension content))) := by
  simp [add_file, hc]

/-- Claim C4: `add_document`, and `add_file` after successful extraction,
reject with the budget error exactly when `(currentTotal + fragmentLen) / 4 >
ceiling`, the ceiling being the explicit one if set and `DEFAULT_MAX_CONTEXT
= 16384` otherwise; on non-rejection the fragment is appended and its byte
length returned.  Concretely (no explicit ceiling): a 40000-byte fragment
into an empty accumulator is admitted, a second one is rejected — both for a
raw document and for a file whose rendering is 40000 bytes. -/
theorem c4_admission_check :
    (∀ (b : PromptBuilder) (content : String),
      ((add_document b content).2 =
          .error (.budgetExceeded (b.max_context.getD DEFAULT_MAX_CONTEXT)) ↔
        (b.total_content_len + byteLen content) / 4 >
          b.max_context.getD DEFAULT_MAX_CONTEXT)
      ∧ (¬ (b.total_content_len + byteLen content) / 4 >
            b.max_context.getD DEFAULT_MAX_CONTEXT →
          add_document b content =
            ({ b with total_content_len := b.total_content_len + byteLen content,
                      documents := b.documents ++ [content] },
             .ok (byteLen content))))
    ∧ (∀ (b : PromptBuilder) (path extension content : String),
      ((add_file b path extension (.ok content)).2 =
          .error (.budgetExceeded (b.max_context.getD DEFAULT_MAX_CONTEXT)) ↔
        (b.total_content_len + byteLen (renderFile path extension content)) / 4 >
          b.max_context.getD DEFAULT_MAX_CONTEXT)
      ∧ (¬ (b.total_content_len + byteLen (renderFile path extension content)) / 4 >
            b.max_context.getD DEFAULT_MAX_CONTEXT →
          add_file b path extension (.ok content) =
            ({ b with total_content_len :=
                        b.total_content_len + byteLen (renderFile path extension content),
                      files := b.files ++ [(path, renderFile path extension content)] },
             .ok (byteLen (renderFile path extension content)))))
    ∧ ((add_document (PromptBuilder.new "p") bigDoc).2 = .ok 40000
      ∧ (add_document (add_document (PromptBuilder.new "p") bigDoc).1 bigDoc).2 =
          .error (.budgetExceeded DEFAULT_MAX_CONTEXT)
      ∧ (add_file (PromptBuilder.new "p") "f" "" (.ok bigFileContent)).2 = .ok 40000
      ∧ (add_file (add_file (PromptBuilder.new "p") "f" "" (.ok bigFileContent)).1
           "f" "" (.ok bigFileContent)).2 = .error (.budgetExceeded DEFAULT_MAX_CONTEXT)) := by
  have hc1 : ¬ ((PromptBuilder.new "p").total_content_len + byteLen bigDoc) / 4 >
      (PromptBuilder.new "p").max_context.getD DEFAULT_MAX_CONTEXT := by
    rw [byteLen_bigDoc]; decide
  have h1 : (add_document (PromptBuilder.new "p") bigDoc).1 =
      ⟨"p", [], [bigDoc], 40000, none⟩ := by
    rw [add_document_accept (PromptBuilder.new "p") bigDoc hc1]
    rw [show (PromptBuilder.new "p").total_content_len + byteLen bigDoc = 40000 from by
      rw [byteLen_bigDoc]; rfl]
    rfl
  have hc2 : ((⟨"p", [], [bigDoc], 40000, none⟩ : PromptBuilder).total_content_len +
      byteLen bigDoc) / 4 >
      (⟨"p", [], [bigDoc], 40000, none⟩ : PromptBuilder).max_context.getD
        DEFAULT_MAX_CONTEXT := by
    rw [byteLen_bigDoc]; decide
  have hf1 : ¬ ((PromptBuilder.new "p").total_content_len +
      byteLen (renderFile "f" "" bigFileContent)) / 4 >
      (PromptBuilder.new "p").max_context.getD DEFAULT_MAX_CONTEXT := by
    rw [byteLen_bigFile]; decide
  have h1f : (add_file (PromptBuilder.new "p") "f" "" (.ok bigFileContent)).1 =
      ⟨"p", [("f", renderFile "f" "" bigFileContent)], [], 40000, none⟩ := by
    rw [add_file_accept (PromptBuilder.new "p") "f" "" bigFileContent hf1]
    rw [show (PromptBuilder.new "p").total_content_len +
        byteLen (renderFile "f" "" bigFileContent) = 40000 from by
      rw [byteLen_bigFile]; rfl]
    rfl
  have hf2 : ((⟨"p", [("f", renderFile "f" "" bigFileContent)], [], 40000, none⟩ :
        PromptBuilder).total_content_len +
      byteLen (renderFile "f" "" bigFileContent)) / 4 >
      (⟨"p", [("f", renderFile "f" "" bigFileContent)], [], 40000, none⟩ :
        PromptBuilder).max_context.getD DEFAULT_MAX_CONTEXT := by
    rw [byteLen_bigFile]; decide
  refine ⟨fun b content => ⟨?_, add_document_accept b content⟩,
    fun b path extension content => ⟨?_, add_file_accept b path extension content⟩,
    ?_, ?_, ?_, ?_⟩
  · by_cases hc : (b.total_content_len + byteLen content) / 4 >
        b.max_context.getD DEFAULT_MAX_CONTEXT
    · rw [add_document_reject b content hc]
      exact iff_of_true rfl hc
    · rw [add_document_accept b content hc]
      exact iff_of_false (by simp) hc
  · by_cases hc : (b.total_content_len + byteLen (renderFile path extension content)) / 4 >
        b.max_context.getD DEFAULT_MAX_CONTEXT
    · rw [add_file_reject b path extension content hc]
      exact iff_of_true rfl hc
    · rw [add_file_accept b path extension content hc]
      exact iff_of_false (by simp) hc
  · rw [add_document_accept (PromptBuilder.new "p") bigDoc hc1, byteLen_bigDoc]
  · rw [h1, add_document_reject _ bigDoc hc2]
    rfl
  · rw [add_file_accept (PromptBuilder.new "p") "f" "" bigFileContent hf1, byteLen_bigFile]
  · rw [h1f, add_file_reject _ "f" "" bigFileContent hf2]
    rfl

/-- Witness for C4, at a concrete input: a 4-byte document into a fresh
builder is admitted and appended. -/
theorem c4_witness :
    add_document (PromptBuilder.new "p") "abcd" =
      ({ PromptBuilder.new "p" with total_content_len := 0 + byteLen "abcd",
                                    documents := [] ++ ["abcd"] },
       .ok (byteLen "abcd")) :=
  (c4_admission_check.1 (PromptBuilder.new "p") "abcd").2 (by decide)

/-- Claim C5: after any sequence of admission calls starting from a fresh
builder, `total_content_len` equals the sum of the byte lengths of the
admitted fragments (rendered length for files, raw length for documents);
quantifying over all sequences covers every instant, each instant being the
state after some prefix of calls.  `build` reports exactly this value in its
stats. -/
theorem c5_total_content_len_invariant :
    ∀ (p : String) (ops : List AdmissionOp) (tpre tpost : String),
      (runOps (PromptBuilder.new p) ops).total_content_len =
        sumFragLen (runOps (PromptBuilder.new p) ops)
      ∧ (build tpre tpost (runOps (PromptBuilder.new p) ops)).2.2.total_content_len =
          (runOps (PromptBuilder.new p) ops).total_content_len := by
  have step : ∀ (b : PromptBuilder) (op : AdmissionOp),
      b.total_content_len = sumFragLen b →
      (applyOp b op).total_content_len = sumFragLen (applyOp b op) := by
    intro b op h
    cases op with
    | file path extension extracted =>
      cases extracted with
      | error e => simpa [applyOp, add_file] using h
      | ok content =>
        by_cases hc : (b.total_content_len + byteLen (renderFile path extension content)) / 4 >
            b.max_context.getD DEFAULT_MAX_CONTEXT
        · simpa [applyOp, add_file, hc] using h
        · simp only [applyOp, add_file, hc, if_false, ite_false, if_neg hc]
          simp [sumFragLen, h]
          omega
    | doc text =>
      by_cases hc : (b.total_content_len + byteLen text) / 4 >
          b.max_context.getD DEFAULT_MAX_CONTEXT
      · simpa [applyOp, add_document, hc] using h
      · simp only [applyOp, add_document, if_neg hc]
        simp [sumFragLen, h]
        omega
  have inv : ∀ (ops : List AdmissionOp) (b : PromptBuilder),
      b.total_content_len = sumFragLen b →
      (runOps b ops).total_content_len = sumFragLen (runOps b ops) := by
    intro ops
    induction ops with
    | nil => intro b h; exact h
    | cons hd tl ih =>
      intro b h
      exact ih (applyOp b hd) (step b hd h)
  intro p ops tpre tpost
  refine ⟨inv ops (PromptBuilder.new p) ?_, rfl⟩
  simp [PromptBuilder.new, sumFragLen]

/-- Claim C6: admission is atomic — when `add_file` or `add_document`
returns an error (extraction failure or budget rejection), the builder state
is exactly what it was before the call. -/
theorem c6_admission_atomic :
    ∀ (b : PromptBuilder) (path extension : String)
      (extracted : Except String String) (content : String) (err : AddError),
      ((add_file b path extension extracted).2 = .error err →
        (add_file b path extension extracted).1 = b)
      ∧ ((add_document b content).2 = .error err →
        (add_document b content).1 = b) := by
  intro b path extension extracted content err
  constructor
  · intro h
    cases extracted with
    | error e => rfl
    | ok c =>
      by_cases hc : (b.total_content_len + byteLen (renderFile path extension c)) / 4 >
          b.max_context.getD DEFAULT_MAX_CONTEXT
      · simp [add_file, hc]
      · simp [add_file, hc] at h
  · intro h
    by_cases hc : (b.total_content_len + byteLen content) / 4 >
        b.max_context.getD DEFAULT_MAX_CONTEXT
    · simp [add_document, hc]
    · simp [add_document, hc] at h

/-- Witness for C6, at a concrete input: with an explicit ceiling of 0, a
4-byte document is rejected and the builder is returned unchanged. -/
theorem c6_witness :
    (add_document (setMaxContext (PromptBuilder.new "p") (some 0)) "abcd").1 =
      setMaxContext (PromptBuilder.new "p") (some 0) :=
  (c6_admission_atomic (setMaxContext (PromptBuilder.new "p") (some 0)) "f" ""
    (.ok "") "abcd" (.budgetExceeded 0)).2 (by decide)

/-- Claim C7: a candidate whose own fragment length `L` alone satisfies
`L / 4 > ceiling` (the effective ceiling at call time) is rejected whatever
was admitted before, since `(currentTotal + L) / 4 ≥ L / 4`. -/
theorem c7_oversized_candidate_rejected :
    ∀ (b : PromptBuilder) (path extension content doc : String),
      (byteLen (renderFile path extension content) / 4 >
          b.max_context.getD DEFAULT_MAX_CONTEXT →
        (add_file b path extension (.ok content)).2 =
          .error (.budgetExceeded (b.max_context.getD DEFAULT_MAX_CONTEXT)))
      ∧ (byteLen doc / 4 > b.max_context.getD DEFAULT_MAX_CONTEXT →
        (add_document b doc).2 =
          .error (.budgetExceeded (b.max_context.getD DEFAULT_MAX_CONTEXT))) := by
  intro b path extension content doc
  have key : ∀ L : Nat, L / 4 > b.max_context.getD DEFAULT_MAX_CONTEXT →
      (b.total_content_len + L) / 4 > b.max_context.getD DEFAULT_MAX_CONTEXT :=
    fun L h => Nat.lt_of_lt_of_le h
      (Nat.div_le_div_right (Nat.le_add_left L b.total_content_len))
  constructor
  · intro h
    simp [add_file, key _ h]
  · intro h
    simp [add_document, key _ h]

/-- Witness for C7, at a concrete input: with an explicit ceiling of 1, an
8-byte document (8/4 = 2 > 1) is rejected. -/
theorem c7_witness :
    (add_document (setMaxContext (PromptBuilder.new "p") (some 1)) "abcdefgh").2 =
      .error (.budgetExceeded 1) :=
  (c7_oversized_candidate_rejected (setMaxContext (PromptBuilder.new "p") (some 1))
    "f" "" "" "abcdefgh").2 (by decide)

/-! ## Claims about `build` -/

/-- Characterization of the doubling loop `alignUpAux`: with enough fuel and
a positive start, the result is `a * 2 ^ k` for the least doubling count `k`
that covers the target. -/
theorem alignUpAux_spec :
    ∀ (fuel a t : Nat), 0 < a → t ≤ a * 2 ^ fuel →
      ∃ k, alignUpAux fuel a t = a * 2 ^ k ∧ t ≤ a * 2 ^ k ∧
        (k = 0 ∨ a * 2 ^ (k - 1) < t) := by
  intro fuel
  induction fuel with
  | zero =>
    intro a t ha ht
    exact ⟨0, by simp [alignUpAux], by simpa using ht, Or.inl rfl⟩
  | succ fuel ih =>
    intro a t ha ht
    by_cases hlt : a < t
    · have ht' : t ≤ a * 2 * 2 ^ fuel := by
        rw [pow_succ] at ht
        calc t ≤ a * (2 ^ fuel * 2) := ht
          _ = a * 2 * 2 ^ fuel := by ring
      obtain ⟨k, hk, hge, hmin⟩ := ih (a * 2) t (by omega) ht'
      refine ⟨k + 1, ?_, ?_, Or.inr ?_⟩
      · simp only [alignUpAux, if_pos hlt]
        rw [hk]; ring
      · calc t ≤ a * 2 * 2 ^ k := hge
          _ = a * 2 ^ (k + 1) := by ring
      · simp only [Nat.add_sub_cancel]
        cases k with
        | zero => simpa using hlt
        | succ m =>
          rcases hmin with hmin | hmin
          · omega
          · have he : a * 2 ^ (m + 1) = a * 2 * 2 ^ m := by ring
            rw [he]
            simpa using hmin
    · exact ⟨0, by simp [alignUpAux, hlt], by simpa using Nat.le_of_not_lt hlt,
        Or.inl rfl⟩

/-- Fuel sufficiency for the call site `alignUpAux t 2048 t`. -/
theorem le_start_mul_pow (t : Nat) : t ≤ 2048 * 2 ^ t :=
  le_trans (Nat.le_of_lt (Nat.lt_two_pow t))
    (Nat.le_mul_of_pos_left _ (by norm_num))

/-- The doubling loop at its call site: result, coverage, minimality. -/
theorem alignUp_spec (t : Nat) :
    ∃ k, alignUpAux t 2048 t = 2048 * 2 ^ k ∧ t ≤ 2048 * 2 ^ k ∧
      (k = 0 ∨ 2048 * 2 ^ (k - 1) < t) :=
  alignUpAux_spec t 2048 t (by norm_num) (le_start_mul_pow t)

/-- For targets within the default ceiling the loop stops after at most
three doublings, so its value is at most the default ceiling. -/
theorem alignUp_le_default (t : Nat) (ht : t ≤ DEFAULT_MAX_CONTEXT) :
    alignUpAux t 2048 t ≤ DEFAULT_MAX_CONTEXT ∧
      ∃ k, k ≤ 3 ∧ alignUpAux t 2048 t = 2048 * 2 ^ k := by
  obtain ⟨k, hk, hge, hmin⟩ := alignUp_spec t
  have hD : DEFAULT_MAX_CONTEXT = 16384 := rfl
  have hk3 : k ≤ 3 := by
    rcases hmin with rfl | hmin
    · omega
    · by_contra h4
      have h8 : (2048 : Nat) * 2 ^ 3 ≤ 2048 * 2 ^ (k - 1) :=
        Nat.mul_le_mul_left _ (Nat.pow_le_pow_right (by norm_num) (by omega))
      have : (16384 : Nat) < t := lt_of_le_of_lt (by norm_num at h8 ⊢; omega) hmin
      omega
  refine ⟨?_, k, hk3, hk⟩
  rw [hk]
  calc 2048 * 2 ^ k ≤ 2048 * 2 ^ 3 :=
        Nat.mul_le_mul_left _ (Nat.pow_le_pow_right (by norm_num) hk3)
    _ = DEFAULT_MAX_CONTEXT := by norm_num [hD]

/-- For targets within the default ceiling, the auto-resolution is exactly
the doubling loop (the final cap does not fire). -/
theorem resolveMaxContext_none_eq (t : Nat) (ht : t ≤ DEFAULT_MAX_CONTEXT) :
    resolveMaxContext none t = alignUpAux t 2048 t := by
  have h1 : ¬ t > DEFAULT_MAX_CONTEXT := not_lt.mpr ht
  have h2 : ¬ alignUpAux t 2048 t > DEFAULT_MAX_CONTEXT :=
    not_lt.mpr (alignUp_le_default t ht).1
  simp only [resolveMaxContext, if_neg h1]
  norm_num [h2]

/-- The auto-resolved value always lies in `{2048, 4096, 8192, 16384}`. -/
theorem resolveMaxContext_none_mem (pcle : Nat) :
    resolveMaxContext none pcle = 2048 ∨ resolveMaxContext none pcle = 4096 ∨
    resolveMaxContext none pcle = 8192 ∨ resolveMaxContext none pcle = 16384 := by
  by_cases h : pcle ≤ DEFAULT_MAX_CONTEXT
  · rw [resolveMaxContext_none_eq pcle h]
    obtain ⟨-, k, hk3, hk⟩ := alignUp_le_default pcle h
    interval_cases k <;> rw [hk] <;> norm_num
  · have h' : pcle > DEFAULT_MAX_CONTEXT := not_le.mp h
    have hr : resolveMaxContext none pcle = DEFAULT_MAX_CONTEXT := by
      simp [resolveMaxContext, h']
    rw [hr]
    norm_num [DEFAULT_MAX_CONTEXT]

/-- The auto-resolved value is monotone in the estimated prompt size. -/
theorem resolveMaxContext_none_mono (p q : Nat) (hpq : p ≤ q) :
    resolveMaxContext none p ≤ resolveMaxContext none q := by
  have hD : DEFAULT_MAX_CONTEXT = 16384 := rfl
  by_cases hq : q ≤ DEFAULT_MAX_CONTEXT
  · have hp : p ≤ DEFAULT_MAX_CONTEXT := le_trans hpq hq
    rw [resolveMaxContext_none_eq p hp, resolveMaxContext_none_eq q hq]
    obtain ⟨k, hk, hge, hmin⟩ := alignUp_spec p
    obtain ⟨k', hk', hge', hmin'⟩ := alignUp_spec q
    rw [hk, hk']
    by_contra hcon
    push_neg at hcon
    have hpow : (2 : Nat) ^ k' < 2 ^ k := Nat.lt_of_mul_lt_mul_left hcon
    have hkk : k' < k := (Nat.pow_lt_pow_iff_right (by norm_num)).mp hpow
    rcases hmin with rfl | hmin
    · omega
    · have h3 : (2048 : Nat) * 2 ^ k' ≤ 2048 * 2 ^ (k - 1) :=
        Nat.mul_le_mul_left _ (Nat.pow_le_pow_right (by norm_num) (by omega))
      have h4 : q ≤ 2048 * 2 ^ k' := hge'
      omega
  · have hq' : q > DEFAULT_MAX_CONTEXT := not_le.mp hq
    have hr : resolveMaxContext none q = DEFAULT_MAX_CONTEXT := by
      simp [resolveMaxContext, hq']
    rw [hr]
    rcases resolveMaxContext_none_mem p with h | h | h | h <;> rw [h] <;> omega

/-- Claim C8: `max_context` resolution — the explicit ceiling wins when set;
otherwise an estimate above the module default is clamped to the default,
and an estimate within it is covered by doubling from 2048, capped at the
default; every auto-resolved value lies in `{2048, 4096, 8192, 16384}`, is
monotone in the estimate, and saturates at the default; `build` resolves its
`max_context` stat exactly this way from its prompt-size estimate. -/
theorem c8_max_context_resolution :
    (∀ m pcle : Nat, resolveMaxContext (some m) pcle = m)
    ∧ (∀ pcle : Nat, DEFAULT_MAX_CONTEXT < pcle →
        resolveMaxContext none pcle = DEFAULT_MAX_CONTEXT)
    ∧ (∀ pcle : Nat, pcle ≤ DEFAULT_MAX_CONTEXT →
        pcle ≤ resolveMaxContext none pcle)
    ∧ (∀ pcle : Nat,
        resolveMaxContext none pcle = 2048 ∨ resolveMaxContext none pcle = 4096 ∨
        resolveMaxContext none pcle = 8192 ∨ resolveMaxContext none pcle = 16384)
    ∧ (∀ p q : Nat, p ≤ q → resolveMaxContext none p ≤ resolveMaxContext none q)
    ∧ (∀ (tpre tpost : String) (b : PromptBuilder),
        (build tpre tpost b).2.2.max_context =
          resolveMaxContext b.max_context
            ((build tpre tpost b).2.2.prompt_context_len_estimated)) := by
  refine ⟨fun m pcle => rfl, fun pcle h => by simp [resolveMaxContext, h],
    fun pcle h => ?_, resolveMaxContext_none_mem, resolveMaxContext_none_mono,
    fun tpre tpost b => rfl⟩
  rw [resolveMaxContext_none_eq pcle h]
  obtain ⟨k, hk, hge, -⟩ := alignUp_spec pcle
  rw [hk]
  exact hge

/-- Witness for C8, at concrete inputs: an explicit ceiling of 7 wins; an
estimate of 20000 clamps to the default; an estimate of 5000 is covered; the
resolution is monotone between 100 and 9000. -/
theorem c8_witness :
    resolveMaxContext (some 7) 3 = 7 ∧
    resolveMaxContext none 20000 = DEFAULT_MAX_CONTEXT ∧
    5000 ≤ resolveMaxContext none 5000 ∧
    resolveMaxContext none 100 ≤ resolveMaxContext none 9000 :=
  ⟨c8_max_context_resolution.1 7 3,
   c8_max_context_resolution.2.1 20000 (by norm_num [DEFAULT_MAX_CONTEXT]),
   c8_max_context_resolution.2.2.1 5000 (by norm_num [DEFAULT_MAX_CONTEXT]),
   c8_max_context_resolution.2.2.2.2.1 100 9000 (by norm_num)⟩

/-- Claim C9: `build` is a pure function of the accumulated state — the
builder is handed back unchanged (the source takes `&self`), re-building
yields the identical prompt text and stats, and with no admitted fragments
the prompt is the base prompt verbatim. -/
theorem c9_build_pure :
    ∀ (tpre tpost : String) (b : PromptBuilder),
      (build tpre tpost b).1 = b
      ∧ (build tpre tpost ((build tpre tpost b).1)).2 = (build tpre tpost b).2
      ∧ (b.files = [] → b.documents = [] → (build tpre tpost b).2.1 = b.prompt) := by
  intro tpre tpost b
  refine ⟨rfl, rfl, fun hf hd => ?_⟩
  simp [build, hf, hd]

/-- Witness for C9, at a concrete input: a fresh builder's prompt is the
base prompt. -/
theorem c9_witness :
    (build "A" "B" (PromptBuilder.new "hello")).2.1 = "hello" :=
  (c9_build_pure "A" "B" (PromptBuilder.new "hello")).2.2 rfl rfl

/-- `String.intercalate` on a two-element list. -/
theorem intercalate_pair (s a b : String) :
    String.intercalate s [a, b] = a ++ s ++ b := rfl

/-- `String.intercalate` on a one-element list. -/
theorem intercalate_single (s a : String) :
    String.intercalate s [a] = a := rfl

/-- Claim C10: assembly preserves admission order.  Each admission call
either leaves the fragment lists unchanged or appends one element at the
end; the file fold appends each successive fragment after a newline; and the
assembled prompt places the `<files>` envelope (around the fold of the files
in list order) before the `<documents>` envelope (around the newline-joined
documents in list order), each envelope present exactly when non-empty,
spliced into the template after the base prompt. -/
theorem c10_assembly_order :
    (∀ (b : PromptBuilder) (op : AdmissionOp),
      ((applyOp b op).files = b.files ∨
        ∃ pr, (applyOp b op).files = b.files ++ [pr])
      ∧ ((applyOp b op).documents = b.documents ∨
        ∃ d, (applyOp b op).documents = b.documents ++ [d]))
    ∧ (∀ (fs : List (String × String)) (pr : String × String),
        foldFiles (fs ++ [pr]) = foldFiles fs ++ "\n" ++ pr.2)
    ∧ (∀ (tpre tpost : String) (b : PromptBuilder),
      (b.files ≠ [] → b.documents = [] →
        (build tpre tpost b).2.1 =
          b.prompt ++ "\n" ++
            (tpre ++ ("<files>\n" ++ foldFiles b.files ++ "\n</files>") ++ tpost))
      ∧ (b.files = [] → b.documents ≠ [] →
        (build tpre tpost b).2.1 =
          b.prompt ++ "\n" ++
            (tpre ++ ("<documents>\n" ++ String.intercalate "\n" b.documents ++
              "\n</documents>") ++ tpost))
      ∧ (b.files ≠ [] → b.documents ≠ [] →
        (build tpre tpost b).2.1 =
          b.prompt ++ "\n" ++
            (tpre ++ ("<files>\n" ++ foldFiles b.files ++ "\n</files>" ++ "\n" ++
              ("<documents>\n" ++ String.intercalate "\n" b.documents ++
                "\n</documents>")) ++ tpost))) := by
  refine ⟨fun b op => ⟨?_, ?_⟩, fun fs pr => ?_, fun tpre tpost b => ⟨?_, ?_, ?_⟩⟩
  · cases op with
    | file path extension extracted =>
      cases extracted with
      | error e => exact Or.inl rfl
      | ok content =>
        by_cases hc : (b.total_content_len +
            byteLen (renderFile path extension content)) / 4 >
            b.max_context.getD DEFAULT_MAX_CONTEXT
        · exact Or.inl (by simp [applyOp, add_file, hc])
        · exact Or.inr ⟨(path, renderFile path extension content),
            by simp [applyOp, add_file, hc]⟩
    | doc text =>
      by_cases hc : (b.total_content_len + byteLen text) / 4 >
          b.max_context.getD DEFAULT_MAX_CONTEXT
      · exact Or.inl (by simp [applyOp, add_document, hc])
      · exact Or.inl (by simp [applyOp, add_document, hc])
  · cases op with
    | file path extension extracted =>
      cases extracted with
      | error e => exact Or.inl rfl
      | ok content =>
        by_cases hc : (b.total_content_len +
            byteLen (renderFile path extension content)) / 4 >
            b.max_context.getD DEFAULT_MAX_CONTEXT
        · exact Or.inl (by simp [applyOp, add_file, hc])
        · exact Or.inl (by simp [applyOp, add_file, hc])
    | doc text =>
      by_cases hc : (b.total_content_len + byteLen text) / 4 >
          b.max_context.getD DEFAULT_MAX_CONTEXT
      · exact Or.inl (by simp [applyOp, add_document, hc])
      · exact Or.inr ⟨text, by simp [applyOp, add_document, hc]⟩
  · simp [foldFiles, List.foldl_append]
  · intro hf hd
    simp only [build, applyTemplate, hd, List.isEmpty_nil,
      List.isEmpty_eq_false.mpr hf]
    simp [intercalate_pair, intercalate_single, String.append_assoc]
  · intro hf hd
    simp only [build, applyTemplate, hf, List.isEmpty_nil,
      List.isEmpty_eq_false.mpr hd]
    simp [intercalate_pair, intercalate_single, String.append_assoc]
  · intro hf hd
    simp only [build, applyTemplate, List.isEmpty_eq_false.mpr hf,
      List.isEmpty_eq_false.mpr hd]
    simp [intercalate_pair, intercalate_single, String.append_assoc]

/-- Witness for C10, at a concrete input: one admitted file and one admitted
document assemble in order, files first. -/
theorem c10_witness :
    (build "A" "B" (⟨"p", [("f", "CONT")], ["DOC"], 0, none⟩ : PromptBuilder)).2.1 =
      "p" ++ "\n" ++
        ("A" ++ ("<files>\n" ++ foldFiles [("f", "CONT")] ++ "\n</files>" ++ "\n" ++
          ("<documents>\n" ++ String.intercalate "\n" ["DOC"] ++ "\n</documents>")) ++
          "B") :=
  (c10_assembly_order.2.2 "A" "B" ⟨"p", [("f", "CONT")], ["DOC"], 0, none⟩).2.2
    (by simp) (by simp)

end Acodeh
